import Mathlib

set_option maxRecDepth 8000

/-!
Shallow embedding of the Bebop swap script (swapTokenBebop and its helpers).
The three external collaborators — the Privy wallet custody service, the Bebop
quote HTTP endpoint, and wallet-address resolution — are modelled as explicit
function parameters, and every outbound network call is recorded in a trace so
that statements about calls never being issued are expressible.
-/

namespace BebopSwap

/-- JS truthiness disjunction for an optional string field: undefined and the
empty string are falsy, so jsStrOr a b models the JS expression a || b for a
string-or-undefined a. -/
def jsStrOr (a : Option String) (b : String) : String :=
  match a with
  | some s => if s = "" then b else s
  | none => b

/-- Split a character list at every dot; the string functions of the core
library recurse on byte positions, so the decimal parser below works on the
underlying character list with plain structural recursion. -/
def splitDot : List Char → List (List Char)
  | [] => [[]]
  | c :: rest =>
      if c = '.' then [] :: splitDot rest
      else
        match splitDot rest with
        | h :: t => (c :: h) :: t
        | [] => [[c]]

/-- Numeric value of a decimal digit list, accumulator style. -/
def digitsVal (acc : Nat) : List Char → Nat
  | [] => acc
  | c :: cs => digitsVal (acc * 10 + (c.toNat - 48)) cs

/-- Model of ethers.parseEther: parse a nonnegative decimal string into its
integer value scaled by 10^18 smallest units, rejecting the empty string, a
missing integer or fractional part, non-digit characters, several decimal
points, and more than 18 fractional digits.  Negative amounts are outside the
modelled scope (a swap sell amount is nonnegative). -/
def toWei18 (s : String) : Option Nat :=
  match splitDot s.toList with
  | [w] =>
      if decide (0 < w.length) && w.all Char.isDigit then
        some (digitsVal 0 w * 10 ^ 18)
      else none
  | [w, f] =>
      if decide (0 < w.length) && w.all Char.isDigit &&
          decide (0 < f.length) && decide (f.length ≤ 18) && f.all Char.isDigit then
        some (digitsVal 0 w * 10 ^ 18 + digitsVal 0 f * 10 ^ (18 - f.length))
      else none
  | _ => none

/-- Hexadecimal digit test. -/
def isHexChar (c : Char) : Bool :=
  c.isDigit || (decide ('a' ≤ c) && decide (c ≤ 'f')) || (decide ('A' ≤ c) && decide (c ≤ 'F'))

/-- Model of ethers.isAddress: the string is 0x followed by exactly 40
hexadecimal digits.  EIP-55 checksum verification of mixed-case addresses
requires keccak256 and is not modelled; every concrete address this development
evaluates on is either digits-and-lowercase or a correctly checksummed constant,
on which the two predicates agree. -/
def isAddress (s : String) : Bool :=
  (s.toList.length == 42) && (s.toList.take 2 == ['0', 'x']) &&
    (s.toList.drop 2).all isHexChar

/-- A swap request.  An absent JS argument is modelled by the falsy value of the
field type (empty string, 0, none), matching the truthiness tests of the
source validation. -/
structure SwapRequest where
  walletId : String
  fromToken : String
  toToken : String
  amount : String
  fromChain : Nat
  toChain : Option Nat
  gasless : Bool
  skipApproval : Bool
deriving Repr, DecidableEq

/-- The prepared transaction inside a Bebop quote response (response.data.tx). -/
structure RawTx where
  «to» : String
  data : String
  value : Option String
  buyAmount : Option String
deriving Repr, DecidableEq

/-- The JSON payload returned by the Bebop quote endpoint: either an error
field, or a prepared transaction plus buy amount.  The sellAmount field records
a sell amount the venue may include in the payload; the source never reads
it. -/
structure QuoteResponse where
  error : Option String
  tx : Option RawTx
  buyAmount : Option String
  sellAmount : Option String
deriving Repr, DecidableEq

/-- Query parameters of the Bebop quote request (source: the params object of
getBebopQuote). -/
structure QuoteParams where
  buy_tokens : String
  sell_tokens : String
  sell_amounts : String
  taker_address : String
  gasless : Bool
  approval_type : String
deriving Repr, DecidableEq

/-- Value returned by getBebopQuote. -/
structure BebopQuote where
  tx : Option RawTx
  sellAmount : String
  buyAmount : Option String
deriving Repr, DecidableEq

/-- One eth_sendTransaction request to the Privy custody service.  sponsor is
the optional gas-sponsorship flag of the wallet API; the swap pipeline never
sets it (the separate Sepolia withdraw script does). -/
structure RpcCall where
  walletId : String
  caip2 : String
  method : String
  «to» : String
  data : String
  value : String
  sponsor : Option Bool
deriving Repr, DecidableEq

/-- One outbound network call of the pipeline. -/
inductive NetCall where
  | walletGet (walletId : String)
  | quoteHttp (chainName : String) (params : QuoteParams)
  | custodyRpc (call : RpcCall)
deriving Repr, DecidableEq

/-- Echo of the quote inside the orchestrator result. -/
structure QuoteEcho where
  fromToken : String
  toToken : String
  sellAmount : String
  buyAmount : Option String
deriving Repr, DecidableEq

/-- Value returned by swapTokenBebop on success. -/
structure SwapResult where
  success : Bool
  transactionHash : String
  quote : QuoteEcho
deriving Repr, DecidableEq

/-- Decidable equality of Except values, used to evaluate pipeline outcomes on
concrete scenarios. -/
instance exceptDecEq {ε α : Type} [DecidableEq ε] [DecidableEq α] :
    DecidableEq (Except ε α) := fun a b =>
  match a, b with
  | .error e, .error f =>
      if h : e = f then .isTrue (by rw [h]) else .isFalse (by intro hh; cases hh; exact h rfl)
  | .error _, .ok _ => .isFalse (by intro hh; cases hh)
  | .ok _, .error _ => .isFalse (by intro hh; cases hh)
  | .ok x, .ok y =>
      if h : x = y then .isTrue (by rw [h]) else .isFalse (by intro hh; cases hh; exact h rfl)

/-- Convert a chain id to CAIP2 form (source: getCAIP2). -/
def getCAIP2 (chainId : Nat) : String := "eip155:" ++ toString chainId

/-- Static chain-id to Bebop network-name table (source: getChainName). -/
def getChainName (chainId : Nat) : Option String :=
  if chainId = 1 then some "ethereum"
  else if chainId = 8453 then some "base"
  else if chainId = 137 then some "polygon"
  else if chainId = 42161 then some "arbitrum"
  else if chainId = 10 then some "optimism"
  else if chainId = 11155111 then some "sepolia"
  else none

/-- Error text raised for an unmapped chain id; JS Object.keys lists the
integer keys of the table in ascending numeric order. -/
def unsupportedChainMsg (chainId : Nat) : String :=
  "Unsupported chain ID: " ++ toString chainId ++
    ". Supported: 1, 10, 137, 8453, 42161, 11155111"

/-- Bebop settlement contract address (source constant BEBOP_SETTLEMENT). -/
def BEBOP_SETTLEMENT : String := "0xbbbbbBB520d69a9775E85b458C58c648259FAD5F"

/-- ethers.MaxUint256, the maximum representable uint256 value. -/
def maxUint256 : Nat := 2 ^ 256 - 1

/-- Fixed post-approval wait in milliseconds (source: setTimeout with 3000). -/
def approvalWaitMs : Nat := 3000

/-- Base-16 digits of n left-padded with zeros to 64 characters (one ABI
word). -/
def hex64 (n : Nat) : String :=
  let s := String.mk (Nat.toDigits 16 n)
  String.mk (List.replicate (64 - s.length) '0') ++ s

/-- ABI call data of approve(spender, amount): the well-known function selector
0x095ea7b3 followed by the two arguments padded to 32 bytes each (model of
ethers encodeFunctionData on the approve fragment). -/
def approveCallData (spender : String) (amount : Nat) : String :=
  "0x095ea7b3" ++ "000000000000000000000000" ++
    String.mk ((spender.toList.drop 2).map Char.toLower) ++ hex64 amount

/-- Unlimited-allowance approval of the Bebop settlement contract (source:
ensureTokenApproval).  The source defines this function, but its only call
site — step 2 of swapTokenBebop, line 77 — is commented out, so the pipeline
never invokes it.  The amount and walletAddress parameters are unused in the
source as well; the three-second wait after submission is recorded by
approvalWaitMs. -/
def ensureTokenApproval (walletId tokenAddress : String) (amount : String)
    (chainId : Nat) (walletAddress : String) (custody : RpcCall → String) :
    String × List NetCall :=
  let call : RpcCall :=
    { walletId := walletId, caip2 := getCAIP2 chainId, method := "eth_sendTransaction",
      «to» := tokenAddress, data := approveCallData BEBOP_SETTLEMENT maxUint256,
      value := "0x0", sponsor := none }
  (custody call, [NetCall.custodyRpc call])

/-- The JS expression response.data.buyAmount || response.data.tx.buyAmount:
falls back to the prepared transaction field when buyAmount is falsy, raising a
TypeError when that fallback dereferences an absent tx. -/
def jsBuyAmount (resp : QuoteResponse) : Except String (Option String) :=
  match resp.buyAmount with
  | some s =>
      if s = "" then
        match resp.tx with
        | some t => .ok t.buyAmount
        | none => .error "TypeError: cannot read buyAmount of undefined"
      else .ok (some s)
  | none =>
      match resp.tx with
      | some t => .ok t.buyAmount
      | none => .error "TypeError: cannot read buyAmount of undefined"

/-- The params object built by getBebopQuote for the quote request. -/
def mkQuoteParams (walletAddress fromToken toToken : String) (amountWei : Nat)
    (gasless : Bool) : QuoteParams :=
  { buy_tokens := toToken, sell_tokens := fromToken,
    sell_amounts := toString amountWei, taker_address := walletAddress,
    gasless := gasless, approval_type := "Standard" }

/-- Tail of getBebopQuote after the HTTP response has arrived: reject an error
payload, otherwise assemble the quote from the prepared transaction, the
locally computed sell amount and the response buy amount. -/
def quoteOfResponse (chainName : String) (params : QuoteParams)
    (resp : QuoteResponse) (amountWei : Nat) :
    Except String BebopQuote × List NetCall :=
  match resp.error with
  | some e => (.error ("Bebop quote error: " ++ e), [NetCall.quoteHttp chainName params])
  | none =>
      match jsBuyAmount resp with
      | .error e => (.error e, [NetCall.quoteHttp chainName params])
      | .ok buyAmt =>
          (.ok { tx := resp.tx, sellAmount := toString amountWei, buyAmount := buyAmt },
           [NetCall.quoteHttp chainName params])

/-- Quote stage (source: getBebopQuote).  The venue parameter stands for the
Bebop HTTP endpoint: applied to the query parameters it yields the response
JSON.  The chain-name lookup and the amount conversion both happen before the
single HTTP call, so their failures leave the trace empty. -/
def getBebopQuote (walletAddress fromToken toToken amount : String)
    (chainId : Nat) (gasless : Bool) (venue : QuoteParams → QuoteResponse) :
    Except String BebopQuote × List NetCall :=
  match getChainName chainId with
  | none => (.error (unsupportedChainMsg chainId), [])
  | some chainName =>
      match toWei18 amount with
      | none => (.error ("invalid decimal value: " ++ amount), [])
      | some amountWei =>
          quoteOfResponse chainName
            (mkQuoteParams walletAddress fromToken toToken amountWei gasless)
            (venue (mkQuoteParams walletAddress fromToken toToken amountWei gasless))
            amountWei

/-- The eth_sendTransaction request executeSwap submits for a prepared
transaction: destination and call data copied from the quote transaction, value
defaulted to 0x0 when falsy, CAIP2 chain reference, and no sponsorship flag. -/
def settleCall (walletId : String) (tx : RawTx) (chainId : Nat) : RpcCall :=
  { walletId := walletId, caip2 := getCAIP2 chainId, method := "eth_sendTransaction",
    «to» := tx.«to», data := tx.data, value := jsStrOr tx.value "0x0", sponsor := none }

/-- Settlement submission (source: executeSwap).  The custody parameter stands
for the Privy walletApi.rpc endpoint, returning the transaction hash of
result.data.hash.  An absent prepared transaction raises a TypeError when its
destination field is dereferenced, before any call is issued. -/
def executeSwap (walletId : String) (rawTransaction : Option RawTx)
    (chainId : Nat) (custody : RpcCall → String) :
    Except String String × List NetCall :=
  match rawTransaction with
  | none => (.error "TypeError: cannot read to of undefined", [])
  | some tx =>
      (.ok (custody (settleCall walletId tx chainId)),
       [NetCall.custodyRpc (settleCall walletId tx chainId)])

/-- Address resolution (source: getWalletAddress); the walletSvc parameter
stands for client.wallets().get, with none meaning the custody service rejects
the wallet id. -/
def getWalletAddress (walletSvc : String → Option String) (walletId : String)
    (chainId : Nat) : Except String String × List NetCall :=
  match walletSvc walletId with
  | some addr => (.ok addr, [NetCall.walletGet walletId])
  | none => (.error "ResolutionError: unknown wallet id", [NetCall.walletGet walletId])

/-- The swap orchestrator (source: swapTokenBebop).  walletSvc, venue and
custody stand for the three external collaborators.  The validation chain runs
before any network call; the call to ensureTokenApproval at step 2 is commented
out in the source, so neither branch of the skipApproval test issues a call. -/
def swapTokenBebop (req : SwapRequest) (walletSvc : String → Option String)
    (venue : QuoteParams → QuoteResponse) (custody : RpcCall → String) :
    Except String SwapResult × List NetCall :=
  if req.walletId = "" then (.error "walletId is required", [])
  else if req.fromToken = "" then (.error "fromToken address is required", [])
  else if req.toToken = "" then (.error "toToken address is required", [])
  else if req.amount = "" then (.error "amount is required", [])
  else if req.fromChain = 0 then (.error "fromChain ID is required", [])
  else if (match req.toChain with
           | some t => t != 0 && t != req.fromChain
           | none => false) then
    (.error "Bebop only supports same-chain swaps. fromChain must equal toChain.", [])
  else if !(isAddress req.fromToken) then
    (.error ("Invalid fromToken address: " ++ req.fromToken), [])
  else if !(isAddress req.toToken) then
    (.error ("Invalid toToken address: " ++ req.toToken), [])
  else
    match getWalletAddress walletSvc req.walletId req.fromChain with
    | (.error e, calls) => (.error e, calls)
    | (.ok addr, calls) =>
        match getBebopQuote addr req.fromToken req.toToken req.amount req.fromChain
            req.gasless venue with
        | (.error e, qcalls) => (.error e, calls ++ qcalls)
        | (.ok quote, qcalls) =>
            match executeSwap req.walletId quote.tx req.fromChain custody with
            | (.error e, ecalls) => (.error e, calls ++ qcalls ++ ecalls)
            | (.ok txHash, ecalls) =>
                (.ok { success := true, transactionHash := txHash,
                       quote := { fromToken := req.fromToken, toToken := req.toToken,
                                  sellAmount := quote.sellAmount,
                                  buyAmount := quote.buyAmount } },
                 calls ++ qcalls ++ ecalls)

/-- Custody submissions contained in a trace. -/
def custodyCalls (calls : List NetCall) : List RpcCall :=
  calls.filterMap fun c =>
    match c with
    | NetCall.custodyRpc r => some r
    | _ => none

/-- WETH on Base (spec scenario constant). -/
def wethBase : String := "0x4200000000000000000000000000000000000006"

/-- USDC on Base (spec scenario constant). -/
def usdcBase : String := "0x833589fCD6eDb6E08f4c7C32D4f71b54bdA02913"

/-- Prepared transaction stub served by the mocked venue. -/
def stubTx : RawTx :=
  { «to» := "0x000000000000000000000000000000000000beb0",
    data := "0xdeadbeef", value := none, buyAmount := some "2500000000" }

/-- Mocked venue: no error field, the transaction stub, a buy amount. -/
def mockVenue : QuoteParams → QuoteResponse := fun _ =>
  { error := none, tx := some stubTx, buyAmount := some "2500000000", sellAmount := none }

/-- Mocked custody service returning hash 0xabc on every submission. -/
def mockCustody : RpcCall → String := fun _ => "0xabc"

/-- Taker address the mocked resolver assigns to wallet w1. -/
def mockTaker : String := "0x00000000000000000000000000000000000f00d1"

/-- Mocked wallet resolution mapping wallet w1 to the fixed taker address. -/
def mockWalletSvc : String → Option String := fun w =>
  if w = "w1" then some mockTaker else none

/-- The end-to-end scenario request of the spec (skipApproval true). -/
def e2eReq : SwapRequest :=
  { walletId := "w1", fromToken := wethBase, toToken := usdcBase, amount := "1",
    fromChain := 8453, toChain := none, gasless := false, skipApproval := true }

/-- The same request with skipApproval false. -/
def c1Req : SwapRequest := { e2eReq with skipApproval := false }

/-- Quote parameters the pipeline sends in the end-to-end scenario. -/
def e2eParams : QuoteParams := mkQuoteParams mockTaker wethBase usdcBase (10 ^ 18) false

/-- Settlement submission of the end-to-end scenario. -/
def e2eSettleCall : RpcCall := settleCall "w1" stubTx 8453

/-- Result the orchestrator returns in the end-to-end scenario. -/
def e2eRes : SwapResult :=
  { success := true, transactionHash := "0xabc",
    quote := { fromToken := wethBase, toToken := usdcBase,
               sellAmount := "1000000000000000000", buyAmount := some "2500000000" } }

/-- Network-call trace of the end-to-end scenario. -/
def e2eTrace : List NetCall :=
  [NetCall.walletGet "w1", NetCall.quoteHttp "base" e2eParams,
   NetCall.custodyRpc e2eSettleCall]

/-- A second mocked venue, identical except for a sell amount planted in the
response payload, used to show the pipeline never reads that field. -/
def mockVenue2 : QuoteParams → QuoteResponse := fun p =>
  { mockVenue p with sellAmount := some "42" }

/-- Mocked venue returning an error payload on every request. -/
def errVenue : QuoteParams → QuoteResponse := fun _ =>
  { error := some "no liquidity", tx := none, buyAmount := none, sellAmount := none }

/-- A pair whose first component is an error never equals a pair whose first
component is a success. -/
theorem error_pair_ne_ok {ε α β : Type} {e : ε} {a : α} {l l' : β}
    (h : ((Except.error e : Except ε α), l) = (Except.ok a, l')) : False :=
  Except.noConfusion (congrArg Prod.fst h)

/-- A pair whose first component is a success never equals a pair whose first
component is an error. -/
theorem ok_pair_ne_error {ε α β : Type} {e : ε} {a : α} {l l' : β}
    (h : ((Except.ok a : Except ε α), l) = (Except.error e, l')) : False :=
  Except.noConfusion (congrArg Prod.fst h)

/-- Whatever the response, the quote stage issues exactly one HTTP call once
the response step is reached. -/
theorem quoteOfResponse_trace (chainName : String) (params : QuoteParams)
    (resp : QuoteResponse) (amountWei : Nat) :
    (quoteOfResponse chainName params resp amountWei).2 =
      [NetCall.quoteHttp chainName params] := by
  cases he : resp.error with
  | some e => simp [quoteOfResponse, he]
  | none =>
      cases hb : jsBuyAmount resp with
      | error e => simp [quoteOfResponse, he, hb]
      | ok b => simp [quoteOfResponse, he, hb]

/-- The success value of the response step does not depend on the query
parameters, only on the response and the locally computed amount. -/
theorem quoteOfResponse_fst (chainName : String) (p p' : QuoteParams)
    (resp : QuoteResponse) (amountWei : Nat) :
    (quoteOfResponse chainName p resp amountWei).1 =
      (quoteOfResponse chainName p' resp amountWei).1 := by
  cases he : resp.error with
  | some e => simp [quoteOfResponse, he]
  | none =>
      cases hb : jsBuyAmount resp with
      | error e => simp [quoteOfResponse, he, hb]
      | ok b => simp [quoteOfResponse, he, hb]

/-- A successful response step yields the locally computed sell amount. -/
theorem quoteOfResponse_ok_sellAmount (chainName : String) (params : QuoteParams)
    (resp : QuoteResponse) (amountWei : Nat) (q : BebopQuote) (tr : List NetCall)
    (h : quoteOfResponse chainName params resp amountWei = (.ok q, tr)) :
    q.sellAmount = toString amountWei := by
  cases he : resp.error with
  | some e =>
      rw [show quoteOfResponse chainName params resp amountWei =
        (.error ("Bebop quote error: " ++ e), [NetCall.quoteHttp chainName params]) from by
          simp [quoteOfResponse, he]] at h
      exact (error_pair_ne_ok h).elim
  | none =>
      cases hb : jsBuyAmount resp with
      | error e =>
          rw [show quoteOfResponse chainName params resp amountWei =
            (.error e, [NetCall.quoteHttp chainName params]) from by
              simp [quoteOfResponse, he, hb]] at h
          exact (error_pair_ne_ok h).elim
      | ok b =>
          rw [show quoteOfResponse chainName params resp amountWei =
            (.ok { tx := resp.tx, sellAmount := toString amountWei, buyAmount := b },
             [NetCall.quoteHttp chainName params]) from by
              simp [quoteOfResponse, he, hb]] at h
          have := congrArg Prod.fst h
          simp only [Except.ok.injEq] at this
          rw [← this]

/-- A successful quote carries the locally converted sell amount: the venue
response is never consulted for it. -/
theorem getBebopQuote_ok_inv (walletAddress fromToken toToken amount : String)
    (chainId : Nat) (gasless : Bool) (venue : QuoteParams → QuoteResponse)
    (q : BebopQuote) (tr : List NetCall)
    (h : getBebopQuote walletAddress fromToken toToken amount chainId gasless venue =
      (.ok q, tr)) :
    ∃ w, toWei18 amount = some w ∧ q.sellAmount = toString w := by
  unfold getBebopQuote at h
  cases hc : getChainName chainId with
  | none => simp only [hc] at h; exact (error_pair_ne_ok h).elim
  | some chainName =>
      simp only [hc] at h
      cases ha : toWei18 amount with
      | none => simp only [ha] at h; exact (error_pair_ne_ok h).elim
      | some w =>
          simp only [ha] at h
          exact ⟨w, rfl, quoteOfResponse_ok_sellAmount _ _ _ _ _ _ h⟩

/-- A successful settlement submission comes from a present prepared
transaction, returns the custody hash of the settlement call, and issues
exactly that call. -/
theorem executeSwap_ok_inv (walletId : String) (rawTransaction : Option RawTx)
    (chainId : Nat) (custody : RpcCall → String) (hash : String) (tr : List NetCall)
    (h : executeSwap walletId rawTransaction chainId custody = (.ok hash, tr)) :
    ∃ tx, rawTransaction = some tx ∧
      hash = custody (settleCall walletId tx chainId) ∧
      tr = [NetCall.custodyRpc (settleCall walletId tx chainId)] := by
  cases rawTransaction with
  | none => exact (error_pair_ne_ok h).elim
  | some tx =>
      refine ⟨tx, rfl, ?_, ?_⟩
      · have := congrArg Prod.fst h
        simp only [executeSwap, Except.ok.injEq] at this
        exact this.symm
      · have := congrArg Prod.snd h
        simp only [executeSwap] at this
        exact this.symm

/-- A failing settlement submission issues no call (its only failure is the
TypeError on an absent prepared transaction, raised before the rpc call). -/
theorem executeSwap_err_inv (walletId : String) (rawTransaction : Option RawTx)
    (chainId : Nat) (custody : RpcCall → String) (e : String) (tr : List NetCall)
    (h : executeSwap walletId rawTransaction chainId custody = (.error e, tr)) :
    tr = [] := by
  cases rawTransaction with
  | none =>
      have := congrArg Prod.snd h
      simpa [executeSwap] using this.symm
  | some tx => exact (ok_pair_ne_error h).elim

/-- The quote stage never submits a custody transaction. -/
theorem getBebopQuote_custody_empty (walletAddress fromToken toToken amount : String)
    (chainId : Nat) (gasless : Bool) (venue : QuoteParams → QuoteResponse) :
    custodyCalls
      (getBebopQuote walletAddress fromToken toToken amount chainId gasless venue).2 = [] := by
  unfold getBebopQuote
  cases hc : getChainName chainId with
  | none => simp only [hc]; rfl
  | some chainName =>
      simp only [hc]
      cases ha : toWei18 amount with
      | none => simp only [ha]; rfl
      | some w =>
          simp only [ha, quoteOfResponse_trace]
          rfl

/-- C2: for every swap request the sell-amount parameter sent to the quote
service is the input human-units amount converted with exactly 18 fractional
digits, whatever the sell token is; the quote stage issues exactly one HTTP call
carrying it. -/
theorem c2_sell_amount_conversion (walletAddress fromToken toToken amount : String)
    (chainId : Nat) (gasless : Bool) (venue : QuoteParams → QuoteResponse)
    (chainName : String) (w : Nat)
    (hc : getChainName chainId = some chainName) (hw : toWei18 amount = some w) :
    (getBebopQuote walletAddress fromToken toToken amount chainId gasless venue).2 =
      [NetCall.quoteHttp chainName
        (mkQuoteParams walletAddress fromToken toToken w gasless)] ∧
    (mkQuoteParams walletAddress fromToken toToken w gasless).sell_amounts = toString w := by
  constructor
  · unfold getBebopQuote
    simp only [hc, hw, quoteOfResponse_trace]
  · rfl

/-- C2 witness: input amount 1.5 converts to 1500000000000000000 and that
string is the sell-amounts query parameter of the single quote call. -/
theorem c2_witness :
    toWei18 "1.5" = some 1500000000000000000 ∧
    (getBebopQuote mockTaker wethBase usdcBase "1.5" 8453 false mockVenue).2 =
      [NetCall.quoteHttp "base"
        (mkQuoteParams mockTaker wethBase usdcBase 1500000000000000000 false)] ∧
    (mkQuoteParams mockTaker wethBase usdcBase 1500000000000000000 false).sell_amounts =
      "1500000000000000000" := by
  have h := c2_sell_amount_conversion mockTaker wethBase usdcBase "1.5" 8453 false
    mockVenue "base" 1500000000000000000 (by decide) (by decide)
  exact ⟨by decide, h.1, by decide⟩

/-- C4: each of the six supported chain ids maps to exactly the listed venue
network name, and the quote stage on any other chain id fails with the
unsupported-chain error while its trace stays empty. -/
theorem c4_chain_table (walletAddress fromToken toToken amount : String)
    (chainId : Nat) (gasless : Bool) (venue : QuoteParams → QuoteResponse)
    (h1 : chainId ≠ 1) (h2 : chainId ≠ 8453) (h3 : chainId ≠ 137)
    (h4 : chainId ≠ 42161) (h5 : chainId ≠ 10) (h6 : chainId ≠ 11155111) :
    getChainName 1 = some "ethereum" ∧ getChainName 8453 = some "base" ∧
    getChainName 137 = some "polygon" ∧ getChainName 42161 = some "arbitrum" ∧
    getChainName 10 = some "optimism" ∧ getChainName 11155111 = some "sepolia" ∧
    getChainName chainId = none ∧
    getBebopQuote walletAddress fromToken toToken amount chainId gasless venue =
      (.error (unsupportedChainMsg chainId), []) := by
  have hn : getChainName chainId = none := by
    simp [getChainName, h1, h2, h3, h4, h5, h6]
  refine ⟨rfl, rfl, rfl, rfl, rfl, rfl, hn, ?_⟩
  unfold getBebopQuote
  simp only [hn]

/-- C4 witness: chain id 2 is unsupported and the quote stage fails on it with
an empty trace. -/
theorem c4_witness :
    getChainName 2 = none ∧
    getBebopQuote mockTaker wethBase usdcBase "1" 2 false mockVenue =
      (.error (unsupportedChainMsg 2), []) := by
  have h := c4_chain_table mockTaker wethBase usdcBase "1" 2 false mockVenue
    (by decide) (by decide) (by decide) (by decide) (by decide) (by decide)
  exact ⟨h.2.2.2.2.2.2.1, h.2.2.2.2.2.2.2⟩

/-- C8: every settlement submission sends the prepared transaction destination
and call data, defaults the value field to 0x0 when the prepared transaction
supplies none, uses the eip155 namespace-reference chain identifier with method
eth_sendTransaction, and returns the custody hash of exactly that call. -/
theorem c8_submitter_shape (walletId : String) (tx : RawTx) (chainId : Nat)
    (custody : RpcCall → String) :
    executeSwap walletId (some tx) chainId custody =
      (.ok (custody (settleCall walletId tx chainId)),
       [NetCall.custodyRpc (settleCall walletId tx chainId)]) ∧
    (settleCall walletId tx chainId).walletId = walletId ∧
    (settleCall walletId tx chainId).«to» = tx.«to» ∧
    (settleCall walletId tx chainId).data = tx.data ∧
    (settleCall walletId tx chainId).value = jsStrOr tx.value "0x0" ∧
    (settleCall walletId { tx with value := none } chainId).value = "0x0" ∧
    (settleCall walletId tx chainId).method = "eth_sendTransaction" ∧
    (settleCall walletId tx chainId).caip2 = getCAIP2 chainId ∧
    getCAIP2 chainId = "eip155:" ++ toString chainId :=
  ⟨rfl, rfl, rfl, rfl, rfl, rfl, rfl, rfl, rfl⟩

/-- C3: a request that passes the presence checks and supplies a destination
chain different from the source chain is rejected with the cross-chain error
before any network call (the trace is empty).  A destination chain of 0 counts
as not supplied, following the JS truthiness convention the source applies to
every numeric argument. -/
theorem c3_cross_chain_rejected (req : SwapRequest) (wsvc : String → Option String)
    (venue : QuoteParams → QuoteResponse) (custody : RpcCall → String) (t : Nat)
    (h1 : req.walletId ≠ "") (h2 : req.fromToken ≠ "") (h3 : req.toToken ≠ "")
    (h4 : req.amount ≠ "") (h5 : req.fromChain ≠ 0)
    (ht : req.toChain = some t) (ht0 : t ≠ 0) (htf : t ≠ req.fromChain) :
    swapTokenBebop req wsvc venue custody =
      (.error "Bebop only supports same-chain swaps. fromChain must equal toChain.", []) := by
  have hcond : (match req.toChain with
      | some t => t != 0 && t != req.fromChain
      | none => false) = true := by
    simp only [ht, Bool.and_eq_true, bne_iff_ne, ne_eq]
    exact ⟨ht0, htf⟩
  unfold swapTokenBebop
  rw [if_neg h1, if_neg h2, if_neg h3, if_neg h4, if_neg h5, if_pos hcond]

/-- C3 witness: destination chain 1 with source chain 8453 is rejected with the
cross-chain error and an empty trace. -/
theorem c3_witness :
    swapTokenBebop { e2eReq with toChain := some 1 } mockWalletSvc mockVenue mockCustody =
      (.error "Bebop only supports same-chain swaps. fromChain must equal toChain.", []) :=
  c3_cross_chain_rejected { e2eReq with toChain := some 1 } mockWalletSvc mockVenue
    mockCustody 1 (by decide) (by decide) (by decide) (by decide) (by decide)
    (by decide) (by decide) (by decide)

/-- C5: when the venue responds with an error payload, the orchestrator fails
with the quote error and the custody submitter is never invoked. -/
theorem c5_quote_error_no_submit (req : SwapRequest) (wsvc : String → Option String)
    (venue : QuoteParams → QuoteResponse) (custody : RpcCall → String)
    (addr chainName : String) (w : Nat) (e : String)
    (h1 : req.walletId ≠ "") (h2 : req.fromToken ≠ "") (h3 : req.toToken ≠ "")
    (h4 : req.amount ≠ "") (h5 : req.fromChain ≠ 0)
    (h6 : (match req.toChain with
           | some t => t != 0 && t != req.fromChain
           | none => false) = false)
    (h7 : isAddress req.fromToken = true) (h8 : isAddress req.toToken = true)
    (hws : wsvc req.walletId = some addr)
    (hc : getChainName req.fromChain = some chainName)
    (ha : toWei18 req.amount = some w)
    (he : ∀ p, (venue p).error = some e) :
    (swapTokenBebop req wsvc venue custody).1 = .error ("Bebop quote error: " ++ e) ∧
    custodyCalls (swapTokenBebop req wsvc venue custody).2 = [] := by
  have hq : getBebopQuote addr req.fromToken req.toToken req.amount req.fromChain
      req.gasless venue =
      (.error ("Bebop quote error: " ++ e),
       [NetCall.quoteHttp chainName
         (mkQuoteParams addr req.fromToken req.toToken w req.gasless)]) := by
    unfold getBebopQuote quoteOfResponse
    simp only [hc, ha, he]
  have hpipe : swapTokenBebop req wsvc venue custody =
      (.error ("Bebop quote error: " ++ e),
       [NetCall.walletGet req.walletId,
        NetCall.quoteHttp chainName
          (mkQuoteParams addr req.fromToken req.toToken w req.gasless)]) := by
    unfold swapTokenBebop getWalletAddress
    rw [if_neg h1, if_neg h2, if_neg h3, if_neg h4, if_neg h5,
        if_neg (by simp [h6]), if_neg (by simp [h7]), if_neg (by simp [h8])]
    simp only [hws, hq]
    rfl
  rw [hpipe]
  exact ⟨rfl, rfl⟩

/-- C5 witness: a venue answering with an error payload makes the end-to-end
request fail with the quote error and no custody submission appears in the
trace. -/
theorem c5_witness :
    (swapTokenBebop e2eReq mockWalletSvc errVenue mockCustody).1 =
      .error ("Bebop quote error: " ++ "no liquidity") ∧
    custodyCalls (swapTokenBebop e2eReq mockWalletSvc errVenue mockCustody).2 = [] :=
  c5_quote_error_no_submit e2eReq mockWalletSvc errVenue mockCustody mockTaker "base"
    (10 ^ 18) "no liquidity" (by decide) (by decide) (by decide) (by decide) (by decide)
    (by decide) (by decide) (by decide) (by decide) (by decide) (by decide)
    (fun _ => rfl)

/-- C6: a request missing the wallet identifier, a token, the amount or the
source chain, or carrying a malformed token address, is rejected with a
validation error before any network call (the trace is empty). -/
theorem c6_validation_rejects (req : SwapRequest) (wsvc : String → Option String)
    (venue : QuoteParams → QuoteResponse) (custody : RpcCall → String)
    (h : req.walletId = "" ∨ req.fromToken = "" ∨ req.toToken = "" ∨ req.amount = "" ∨
         req.fromChain = 0 ∨ isAddress req.fromToken = false ∨
         isAddress req.toToken = false) :
    ∃ e, swapTokenBebop req wsvc venue custody = (.error e, []) := by
  unfold swapTokenBebop
  split_ifs with g1 g2 g3 g4 g5 g6 g7 g8
  · exact ⟨_, rfl⟩
  · exact ⟨_, rfl⟩
  · exact ⟨_, rfl⟩
  · exact ⟨_, rfl⟩
  · exact ⟨_, rfl⟩
  · exact ⟨_, rfl⟩
  · exact ⟨_, rfl⟩
  · exact ⟨_, rfl⟩
  · exfalso
    simp only [Bool.not_eq_true] at g7 g8
    rcases h with h | h | h | h | h | h | h
    · exact g1 h
    · exact g2 h
    · exact g3 h
    · exact g4 h
    · exact g5 h
    · simp [h] at g7
    · simp [h] at g8

/-- C6 witness: a malformed sell-token address is rejected with an error and an
empty trace. -/
theorem c6_witness :
    ∃ e, swapTokenBebop { e2eReq with fromToken := "0x123" } mockWalletSvc mockVenue
      mockCustody = (.error e, []) :=
  c6_validation_rejects { e2eReq with fromToken := "0x123" } mockWalletSvc mockVenue
    mockCustody (by decide)

/-- Inversion of a successful orchestration: the result carries success true,
the sell amount locally converted from the request amount, the request token
echo, and the hash the custody service returned for the settlement call, which
appears in the trace. -/
theorem swapTokenBebop_ok_inv (req : SwapRequest) (wsvc : String → Option String)
    (venue : QuoteParams → QuoteResponse) (custody : RpcCall → String)
    (res : SwapResult) (tr : List NetCall)
    (h : swapTokenBebop req wsvc venue custody = (.ok res, tr)) :
    res.success = true ∧
    (toWei18 req.amount).map toString = some res.quote.sellAmount ∧
    res.quote.fromToken = req.fromToken ∧ res.quote.toToken = req.toToken ∧
    ∃ tx, res.transactionHash = custody (settleCall req.walletId tx req.fromChain) ∧
      NetCall.custodyRpc (settleCall req.walletId tx req.fromChain) ∈ tr := by
  unfold swapTokenBebop at h
  split_ifs at h
  any_goals exact (error_pair_ne_ok h).elim
  unfold getWalletAddress at h
  cases hws : wsvc req.walletId with
  | none => simp only [hws] at h; exact (error_pair_ne_ok h).elim
  | some addr =>
      simp only [hws] at h
      rcases hq : getBebopQuote addr req.fromToken req.toToken req.amount req.fromChain
        req.gasless venue with ⟨qres, qcalls⟩
      simp only [hq] at h
      cases qres with
      | error e => exact (error_pair_ne_ok h).elim
      | ok quote =>
          rcases hx : executeSwap req.walletId quote.tx req.fromChain custody
            with ⟨xres, xcalls⟩
          simp only [hx] at h
          cases xres with
          | error e => exact (error_pair_ne_ok h).elim
          | ok txHash =>
              injection h with hfst hsnd
              injection hfst with hres
              subst hres
              subst hsnd
              obtain ⟨w, hw, hsell⟩ := getBebopQuote_ok_inv addr req.fromToken
                req.toToken req.amount req.fromChain req.gasless venue quote qcalls hq
              obtain ⟨tx, _, hhash, hxcalls⟩ := executeSwap_ok_inv req.walletId
                quote.tx req.fromChain custody txHash xcalls hx
              refine ⟨rfl, ?_, rfl, rfl, tx, hhash, ?_⟩
              · rw [hw]
                simp only [Option.map_some', hsell]
              · rw [hxcalls]
                simp

/-- C7: every successful swap returns success true together with the hash the
custody service produced for the settlement submission recorded in the trace;
in the end-to-end scenario (amount 1, mocked quote with sell amount
1000000000000000000, mocked custody hash 0xabc) the result is exactly success
true, hash 0xabc, and the quote echo with those amounts. -/
theorem c7_success_result :
    (∀ (req : SwapRequest) (wsvc : String → Option String)
        (venue : QuoteParams → QuoteResponse) (custody : RpcCall → String)
        (res : SwapResult) (tr : List NetCall),
      swapTokenBebop req wsvc venue custody = (.ok res, tr) →
      res.success = true ∧
      ∃ tx, res.transactionHash = custody (settleCall req.walletId tx req.fromChain) ∧
        NetCall.custodyRpc (settleCall req.walletId tx req.fromChain) ∈ tr) ∧
    swapTokenBebop e2eReq mockWalletSvc mockVenue mockCustody = (.ok e2eRes, e2eTrace) ∧
    e2eRes = { success := true, transactionHash := "0xabc",
               quote := { fromToken := wethBase, toToken := usdcBase,
                          sellAmount := "1000000000000000000",
                          buyAmount := some "2500000000" } } := by
  refine ⟨?_, by decide, rfl⟩
  intro req wsvc venue custody res tr h
  obtain ⟨hs, _, _, _, tx, hh, hm⟩ := swapTokenBebop_ok_inv req wsvc venue custody res tr h
  exact ⟨hs, tx, hh, hm⟩

/-- C7 witness: the general success-shape statement applied to the end-to-end
scenario. -/
theorem c7_witness :
    e2eRes.success = true ∧
    ∃ tx, e2eRes.transactionHash = mockCustody (settleCall e2eReq.walletId tx e2eReq.fromChain) ∧
      NetCall.custodyRpc (settleCall e2eReq.walletId tx e2eReq.fromChain) ∈ e2eTrace :=
  c7_success_result.1 e2eReq mockWalletSvc mockVenue mockCustody e2eRes e2eTrace (by decide)

/-- C9: the sell amount of the quote echo of any successful swap is the local
18-decimal conversion of the request amount, and two runs that differ only in
the venue response produce the same sell amount — it never depends on any sell
amount present in the venue payload. -/
theorem c9_sell_amount_local (req : SwapRequest) (wsvc : String → Option String)
    (venue venue2 : QuoteParams → QuoteResponse) (custody : RpcCall → String)
    (res res2 : SwapResult) (tr tr2 : List NetCall)
    (h : swapTokenBebop req wsvc venue custody = (.ok res, tr))
    (h2 : swapTokenBebop req wsvc venue2 custody = (.ok res2, tr2)) :
    (toWei18 req.amount).map toString = some res.quote.sellAmount ∧
    res2.quote.sellAmount = res.quote.sellAmount := by
  obtain ⟨_, ha, _⟩ := swapTokenBebop_ok_inv req wsvc venue custody res tr h
  obtain ⟨_, hb, _⟩ := swapTokenBebop_ok_inv req wsvc venue2 custody res2 tr2 h2
  exact ⟨ha, Option.some.inj (hb.symm.trans ha)⟩

/-- C9 witness: the end-to-end run against the mocked venue and against the
variant venue that plants a sell amount of 42 in its payload agree on the
locally computed sell amount. -/
theorem c9_witness :
    (toWei18 e2eReq.amount).map toString = some e2eRes.quote.sellAmount ∧
    e2eRes.quote.sellAmount = e2eRes.quote.sellAmount :=
  c9_sell_amount_local e2eReq mockWalletSvc mockVenue mockVenue2 mockCustody
    e2eRes e2eRes e2eTrace e2eTrace (by decide) (by decide)

/-- Custody submissions distribute over trace concatenation. -/
theorem custodyCalls_append (l1 l2 : List NetCall) :
    custodyCalls (l1 ++ l2) = custodyCalls l1 ++ custodyCalls l2 := by
  simp [custodyCalls]

/-- The empty trace holds no custody submission. -/
theorem custodyCalls_nil : custodyCalls [] = [] := rfl

/-- A wallet lookup is not a custody submission. -/
theorem custodyCalls_walletGet (w : String) (l : List NetCall) :
    custodyCalls (NetCall.walletGet w :: l) = custodyCalls l := rfl

/-- A quote request is not a custody submission. -/
theorem custodyCalls_quoteHttp (n : String) (p : QuoteParams) (l : List NetCall) :
    custodyCalls (NetCall.quoteHttp n p :: l) = custodyCalls l := rfl

/-- A custody rpc heads the custody submissions of its trace. -/
theorem custodyCalls_custodyRpc (r : RpcCall) (l : List NetCall) :
    custodyCalls (NetCall.custodyRpc r :: l) = r :: custodyCalls l := rfl

/-- The quote value does not depend on the gasless flag when the venue response
does not. -/
theorem getBebopQuote_fst_gasless (walletAddress fromToken toToken amount : String)
    (chainId : Nat) (b b' : Bool) (venue : QuoteParams → QuoteResponse)
    (hv : ∀ p c, venue { p with gasless := c } = venue p) :
    (getBebopQuote walletAddress fromToken toToken amount chainId b venue).1 =
      (getBebopQuote walletAddress fromToken toToken amount chainId b' venue).1 := by
  unfold getBebopQuote
  cases hc : getChainName chainId with
  | none => rfl
  | some chainName =>
      simp only [hc]
      cases ha : toWei18 amount with
      | none => rfl
      | some w =>
          simp only [ha]
          have hr : venue (mkQuoteParams walletAddress fromToken toToken w b) =
              venue (mkQuoteParams walletAddress fromToken toToken w b') :=
            hv (mkQuoteParams walletAddress fromToken toToken w b') b
          rw [hr]
          exact quoteOfResponse_fst chainName _ _ _ w

/-- Two orchestrations differing only in the gasless flag agree on the result
and on the custody submissions, provided the venue response ignores the
flag. -/
theorem swapTokenBebop_gasless_runs (req : SwapRequest) (wsvc : String → Option String)
    (venue : QuoteParams → QuoteResponse) (custody : RpcCall → String) (b b' : Bool)
    (hv : ∀ p c, venue { p with gasless := c } = venue p) :
    (swapTokenBebop { req with gasless := b } wsvc venue custody).1 =
      (swapTokenBebop { req with gasless := b' } wsvc venue custody).1 ∧
    custodyCalls (swapTokenBebop { req with gasless := b } wsvc venue custody).2 =
      custodyCalls (swapTokenBebop { req with gasless := b' } wsvc venue custody).2 := by
  unfold swapTokenBebop
  dsimp only
  split_ifs
  · exact ⟨rfl, rfl⟩
  · exact ⟨rfl, rfl⟩
  · exact ⟨rfl, rfl⟩
  · exact ⟨rfl, rfl⟩
  · exact ⟨rfl, rfl⟩
  · exact ⟨rfl, rfl⟩
  · exact ⟨rfl, rfl⟩
  · exact ⟨rfl, rfl⟩
  · unfold getWalletAddress
    cases hws : wsvc req.walletId with
    | none => exact ⟨rfl, rfl⟩
    | some addr =>
        simp only [hws]
        rcases hq : getBebopQuote addr req.fromToken req.toToken req.amount
          req.fromChain b venue with ⟨qres, qcalls⟩
        rcases hq' : getBebopQuote addr req.fromToken req.toToken req.amount
          req.fromChain b' venue with ⟨qres', qcalls'⟩
        have hfst : qres = qres' := by
          have hgl := getBebopQuote_fst_gasless addr req.fromToken req.toToken
            req.amount req.fromChain b b' venue hv
          rw [hq, hq'] at hgl
          exact hgl
        subst hfst
        have hqe : custodyCalls qcalls = [] := by
          have h2 := getBebopQuote_custody_empty addr req.fromToken req.toToken
            req.amount req.fromChain b venue
          rw [hq] at h2
          exact h2
        have hqe' : custodyCalls qcalls' = [] := by
          have h2 := getBebopQuote_custody_empty addr req.fromToken req.toToken
            req.amount req.fromChain b' venue
          rw [hq'] at h2
          exact h2
        cases qres with
        | error e =>
            refine ⟨rfl, ?_⟩
            simp [custodyCalls_append, custodyCalls_walletGet, custodyCalls_nil, hqe, hqe']
        | ok quote =>
            dsimp only
            rcases hx : executeSwap req.walletId quote.tx req.fromChain custody
              with ⟨xres, xcalls⟩
            cases xres with
            | error e =>
                refine ⟨rfl, ?_⟩
                simp [custodyCalls_append, custodyCalls_walletGet, custodyCalls_nil, hqe, hqe']
            | ok txHash =>
                refine ⟨rfl, ?_⟩
                simp [custodyCalls_append, custodyCalls_walletGet, custodyCalls_nil, hqe, hqe']

/-- The swap pipeline never attaches a sponsorship flag to any custody
submission. -/
theorem swapTokenBebop_sponsor_none (req : SwapRequest) (wsvc : String → Option String)
    (venue : QuoteParams → QuoteResponse) (custody : RpcCall → String) :
    ∀ call ∈ custodyCalls (swapTokenBebop req wsvc venue custody).2,
      call.sponsor = none := by
  intro call hcall
  unfold swapTokenBebop at hcall
  split_ifs at hcall
  · simp [custodyCalls] at hcall
  · simp [custodyCalls] at hcall
  · simp [custodyCalls] at hcall
  · simp [custodyCalls] at hcall
  · simp [custodyCalls] at hcall
  · simp [custodyCalls] at hcall
  · simp [custodyCalls] at hcall
  · simp [custodyCalls] at hcall
  · unfold getWalletAddress at hcall
    cases hws : wsvc req.walletId with
    | none => simp only [hws] at hcall; simp [custodyCalls] at hcall
    | some addr =>
        simp only [hws] at hcall
        rcases hq : getBebopQuote addr req.fromToken req.toToken req.amount
          req.fromChain req.gasless venue with ⟨qres, qcalls⟩
        simp only [hq] at hcall
        have hqe : custodyCalls qcalls = [] := by
          have h2 := getBebopQuote_custody_empty addr req.fromToken req.toToken
            req.amount req.fromChain req.gasless venue
          rw [hq] at h2
          exact h2
        cases qres with
        | error e =>
            simp [custodyCalls_append, custodyCalls_walletGet, custodyCalls_nil, hqe] at hcall
        | ok quote =>
            rcases hx : executeSwap req.walletId quote.tx req.fromChain custody
              with ⟨xres, xcalls⟩
            simp only [hx] at hcall
            cases xres with
            | error e =>
                have hxe : xcalls = [] := executeSwap_err_inv _ _ _ _ _ _ hx
                subst hxe
                simp [custodyCalls_append, custodyCalls_walletGet, custodyCalls_nil,
                  hqe] at hcall
            | ok txHash =>
                obtain ⟨tx, _, _, hxcalls⟩ := executeSwap_ok_inv _ _ _ _ _ _ hx
                subst hxcalls
                simp [custodyCalls_append, custodyCalls_walletGet, custodyCalls_nil,
                  custodyCalls_custodyRpc, hqe] at hcall
                subst hcall
                rfl

/-- C10: two invocations that differ only in the gasless flag and receive the
same venue response produce the same result and identical custody submissions
(settlement destination, data and value), and no custody submission of any run
ever carries a sponsorship flag. -/
theorem c10_gasless_isolated (req : SwapRequest) (wsvc : String → Option String)
    (venue : QuoteParams → QuoteResponse) (custody : RpcCall → String)
    (hv : ∀ p c, venue { p with gasless := c } = venue p) :
    (swapTokenBebop { req with gasless := true } wsvc venue custody).1 =
      (swapTokenBebop { req with gasless := false } wsvc venue custody).1 ∧
    custodyCalls (swapTokenBebop { req with gasless := true } wsvc venue custody).2 =
      custodyCalls (swapTokenBebop { req with gasless := false } wsvc venue custody).2 ∧
    ∀ call ∈ custodyCalls (swapTokenBebop req wsvc venue custody).2,
      call.sponsor = none := by
  obtain ⟨h1, h2⟩ := swapTokenBebop_gasless_runs req wsvc venue custody true false hv
  exact ⟨h1, h2, swapTokenBebop_sponsor_none req wsvc venue custody⟩

/-- C10 witness: the end-to-end request run gasless and non-gasless against the
mocked venue yields the same result and custody submissions, none carrying a
sponsorship flag. -/
theorem c10_witness :
    (swapTokenBebop { e2eReq with gasless := true } mockWalletSvc mockVenue mockCustody).1 =
      (swapTokenBebop { e2eReq with gasless := false } mockWalletSvc mockVenue mockCustody).1 ∧
    custodyCalls (swapTokenBebop { e2eReq with gasless := true } mockWalletSvc mockVenue
      mockCustody).2 =
      custodyCalls (swapTokenBebop { e2eReq with gasless := false } mockWalletSvc mockVenue
        mockCustody).2 ∧
    ∀ call ∈ custodyCalls (swapTokenBebop e2eReq mockWalletSvc mockVenue mockCustody).2,
      call.sponsor = none :=
  c10_gasless_isolated e2eReq mockWalletSvc mockVenue mockCustody (fun _ _ => rfl)

/-- C1: evaluating the orchestrator at a skipApproval-false request shows the
approval stage submits nothing: the run succeeds with exactly the same trace as
the skipApproval-true end-to-end run — one wallet lookup, one quote call and
the settlement submission, no approval transaction and no post-approval wait —
because the call to ensureTokenApproval (line 77 of the source) is commented
out.  The dead ensureTokenApproval itself would have submitted the
unlimited-allowance approval of the sell token for the settlement contract and
then waited the fixed 3000 ms. -/
theorem c1_approval_stage_dead :
    c1Req.skipApproval = false ∧
    swapTokenBebop c1Req mockWalletSvc mockVenue mockCustody = (.ok e2eRes, e2eTrace) ∧
    custodyCalls e2eTrace = [settleCall "w1" stubTx 8453] ∧
    (∀ call ∈ custodyCalls e2eTrace,
      call.«to» ≠ c1Req.fromToken ∧
      call.data ≠ approveCallData BEBOP_SETTLEMENT maxUint256) ∧
    (ensureTokenApproval "w1" c1Req.fromToken c1Req.amount c1Req.fromChain mockTaker
      mockCustody).2 =
      [NetCall.custodyRpc
        { walletId := "w1", caip2 := "eip155:8453", method := "eth_sendTransaction",
          «to» := c1Req.fromToken, data := approveCallData BEBOP_SETTLEMENT maxUint256,
          value := "0x0", sponsor := none }] ∧
    approvalWaitMs = 3000 :=
  ⟨rfl, by decide, by decide, by decide, by decide, rfl⟩

end BebopSwap
